import Mathlib

/-!
Shallow embedding of the `auth-onsocial` contract core (src/state.rs,
src/types.rs, src/errors.rs) and proofs about its claims.

Modelling decisions:
* `AccountId` and `PublicKey` are opaque identifiers; accounts are strings and
  public keys are byte lists (the code only ever compares them for equality).
* `near_sdk::store::LookupMap` is an association list with lookup/insert/remove
  by key; `near_sdk::store::IterableSet` is a duplicate-free list in insertion
  order whose `contains`/`remove` compare the entire element (full structural
  equality of `KeyInfo`, exactly as borsh-keyed sets do).
* `env::block_timestamp_ms()` is an explicit `now : Nat` argument.
* Functions that mutate `&mut self` and return `Result<(), AuthError>` become
  functions `State → ... → Option AuthError × State`, threading every mutation
  the Rust code performs before an early return (so atomicity-on-error is a
  theorem, not a modelling artifact).
-/

abbrev AccountId := String

abbrev PublicKey := List Nat

/-- A signature blob (`Vec<u8>` in the source). -/
abbrev SigBlob := List Nat

/-- `AuthError` from src/errors.rs, plus the `AccountStillActive` variant that
src/state.rs line 238 returns (the errors.rs listing in the snapshot predates
it). -/
inductive AuthError where
  | Unauthorized
  | KeyNotFound
  | KeyAlreadyExists
  | ContractPaused
  | AdminAlreadyExists
  | AdminNotFound
  | LastAdmin
  | AccountStillActive
deriving DecidableEq, Repr

/-- `KeyInfo` from src/types.rs. -/
structure KeyInfo where
  public_key : PublicKey
  expiration_timestamp : Option Nat
  is_multi_sig : Bool
  multi_sig_threshold : Option Nat
deriving DecidableEq, Repr

/-- `AuthContractState` from src/state.rs: a keys map, a last-active map and the
registered-accounts index. -/
structure AuthContractState where
  keys : List (AccountId × List KeyInfo)
  last_active_timestamps : List (AccountId × Nat)
  registered_accounts : List AccountId
deriving DecidableEq, Repr

/-- Lookup in a `LookupMap` modelled as an association list. -/
def mapLookup {β : Type} (l : List (AccountId × β)) (k : AccountId) : Option β :=
  match l with
  | [] => none
  | (k1, v) :: rest => if k = k1 then some v else mapLookup rest k

/-- Insert/overwrite in a `LookupMap`. -/
def mapInsert {β : Type} (l : List (AccountId × β)) (k : AccountId) (v : β) :
    List (AccountId × β) :=
  match l with
  | [] => [(k, v)]
  | (k1, v1) :: rest => if k = k1 then (k, v) :: rest else (k1, v1) :: mapInsert rest k v

/-- Remove a key from a `LookupMap`. -/
def mapRemove {β : Type} (l : List (AccountId × β)) (k : AccountId) :
    List (AccountId × β) :=
  l.filter (fun p => decide (p.1 ≠ k))

/-- `IterableSet::insert`: append if the element is not already present. -/
def setInsert {α : Type} [DecidableEq α] (l : List α) (a : α) : List α :=
  if a ∈ l then l else l ++ [a]

/-- `IterableSet::remove`: drop the element (full structural equality). -/
def setRemove {α : Type} [DecidableEq α] (l : List α) (a : α) : List α :=
  l.filter (fun x => decide (x ≠ a))

/-- `AuthContractState::new()`. -/
def emptyState : AuthContractState :=
  { keys := [], last_active_timestamps := [], registered_accounts := [] }

/-- The expiry test `now > expiration` guarded by `if let Some(expiration)`
(src/state.rs lines 51-55 and 210). -/
def isExpired (expiration_timestamp : Option Nat) (now : Nat) : Bool :=
  match expiration_timestamp with
  | some expiration => decide (now > expiration)
  | none => false

/-- The signature/threshold branch of `is_authorized` (src/state.rs lines
57-63): multi-sig keys count the supplied blobs against
`multi_sig_threshold.unwrap_or(1)`; single-sig keys yield `true` outright. -/
def policyDecision (key_info : KeyInfo) (signatures : Option (List SigBlob)) : Bool :=
  if key_info.is_multi_sig then
    decide ((signatures.getD []).length ≥ key_info.multi_sig_threshold.getD 1)
  else
    true

/-- `is_authorized` (src/state.rs lines 35-70).  Returns the decision and the
state after the `last_active_timestamps` write-back. -/
def is_authorized (s : AuthContractState) (account_id : AccountId)
    (public_key : PublicKey) (signatures : Option (List SigBlob)) (now : Nat) :
    Bool × AuthContractState :=
  match mapLookup s.keys account_id with
  | none => (false, s)
  | some key_set =>
    match key_set.find? (fun k => k.public_key == public_key) with
    | none => (false, s)
    | some key_info =>
      if isExpired key_info.expiration_timestamp now then (false, s)
      else
        let authorized := policyDecision key_info signatures
        if authorized then
          (authorized,
            { s with last_active_timestamps :=
                mapInsert s.last_active_timestamps account_id now })
        else
          (authorized, s)

/-- The lazy account-creation block of `register_key`
(src/state.rs lines 96-101). -/
def lazyCreate (s : AuthContractState) (account_id : AccountId) : AuthContractState :=
  if mapLookup s.keys account_id = none then
    { s with keys := mapInsert s.keys account_id [],
             registered_accounts := setInsert s.registered_accounts account_id }
  else s

/-- The record that `register_key` (src/state.rs lines 85-94) and `rotate_key`
(lines 179-186) build from their arguments: an optional expiration of
`now + days * 24 * 60 * 60 * 1000` ms. -/
def mkKeyInfo (public_key : PublicKey) (expiration_days : Option Nat) (multi : Bool)
    (multi_sig_threshold : Option Nat) (now : Nat) : KeyInfo :=
  { public_key := public_key
    expiration_timestamp := expiration_days.map (fun days => now + days * 24 * 60 * 60 * 1000)
    is_multi_sig := multi
    multi_sig_threshold := multi_sig_threshold }

/-- `register_key` (src/state.rs lines 72-117). -/
def register_key (s : AuthContractState) (caller account_id : AccountId)
    (public_key : PublicKey) (expiration_days : Option Nat) (multi : Bool)
    (multi_sig_threshold : Option Nat) (now : Nat) :
    Option AuthError × AuthContractState :=
  if caller ≠ account_id then (some AuthError.Unauthorized, s)
  else
    let key_info := mkKeyInfo public_key expiration_days multi multi_sig_threshold now
    let s1 := lazyCreate s account_id
    let key_set := (mapLookup s1.keys account_id).getD []
    if key_info ∈ key_set then (some AuthError.KeyAlreadyExists, s1)
    else
      (none,
        { s1 with keys := mapInsert s1.keys account_id (key_set ++ [key_info]),
                  last_active_timestamps :=
                    mapInsert s1.last_active_timestamps account_id now })

/-- The lookup record with defaulted policy fields that `remove_key`
(src/state.rs lines 130-135) and `rotate_key` (lines 169-174) build to locate
the record to delete. -/
def defaultKeyInfo (public_key : PublicKey) : KeyInfo :=
  { public_key := public_key, expiration_timestamp := none,
    is_multi_sig := false, multi_sig_threshold := none }

/-- The purge-empty-account compound step (src/state.rs lines 140-144, 223-227,
251-253). -/
def purgeAccount (s : AuthContractState) (account_id : AccountId) : AuthContractState :=
  { keys := mapRemove s.keys account_id,
    last_active_timestamps := mapRemove s.last_active_timestamps account_id,
    registered_accounts := setRemove s.registered_accounts account_id }

/-- `remove_key` (src/state.rs lines 119-152).  Note the lookup record is built
with defaulted policy fields, exactly as the source does. -/
def remove_key (s : AuthContractState) (caller account_id : AccountId)
    (public_key : PublicKey) : Option AuthError × AuthContractState :=
  if caller ≠ account_id then (some AuthError.Unauthorized, s)
  else
    match mapLookup s.keys account_id with
    | none => (some AuthError.KeyNotFound, s)
    | some key_set =>
      let key_info := defaultKeyInfo public_key
      if key_info ∉ key_set then (some AuthError.KeyNotFound, s)
      else
        let key_set1 := setRemove key_set key_info
        if key_set1.isEmpty then (none, purgeAccount s account_id)
        else (none, { s with keys := mapInsert s.keys account_id key_set1 })

/-- `rotate_key` (src/state.rs lines 154-202). -/
def rotate_key (s : AuthContractState) (caller account_id : AccountId)
    (old_public_key new_public_key : PublicKey) (expiration_days : Option Nat)
    (multi : Bool) (multi_sig_threshold : Option Nat) (now : Nat) :
    Option AuthError × AuthContractState :=
  if caller ≠ account_id then (some AuthError.Unauthorized, s)
  else
    match mapLookup s.keys account_id with
    | none => (some AuthError.KeyNotFound, s)
    | some key_set =>
      let old_key_info := defaultKeyInfo old_public_key
      if old_key_info ∉ key_set then (some AuthError.KeyNotFound, s)
      else
        let new_key_info :=
          mkKeyInfo new_public_key expiration_days multi multi_sig_threshold now
        if new_key_info ∈ key_set then (some AuthError.KeyAlreadyExists, s)
        else
          (none,
            { s with keys := mapInsert s.keys account_id
                        (setRemove key_set old_key_info ++ [new_key_info]),
                     last_active_timestamps :=
                        mapInsert s.last_active_timestamps account_id now })

/-- `remove_expired_keys` (src/state.rs lines 204-230). -/
def remove_expired_keys (s : AuthContractState) (account_id : AccountId) (now : Nat) :
    Option AuthError × AuthContractState :=
  match mapLookup s.keys account_id with
  | none => (some AuthError.KeyNotFound, s)
  | some key_set =>
    let key_set1 := key_set.filter (fun k => ! isExpired k.expiration_timestamp now)
    if key_set1.isEmpty then (none, purgeAccount s account_id)
    else (none, { s with keys := mapInsert s.keys account_id key_set1 })

/-- One year in milliseconds (src/state.rs lines 235 and 261). -/
def ONE_YEAR_MS : Nat := 31536000000

/-- `remove_inactive_accounts` (src/state.rs lines 232-256). -/
def remove_inactive_accounts (s : AuthContractState) (account_id : AccountId)
    (now : Nat) : Option AuthError × AuthContractState :=
  match mapLookup s.last_active_timestamps account_id with
  | none => (some AuthError.KeyNotFound, s)
  | some last_active =>
    if now ≤ last_active + ONE_YEAR_MS then (some AuthError.AccountStillActive, s)
    else
      match mapLookup s.keys account_id with
      | none => (some AuthError.KeyNotFound, s)
      | some _ => (none, purgeAccount s account_id)

/-- The per-account test of the `get_inactive_accounts` loop body
(src/state.rs lines 269-275): the window/quota guard `index >= start &&
count < limit` and the one-year inactivity check on the activity timestamp. -/
def inactiveHit (ts : List (AccountId × Nat)) (now start limit index count : Nat)
    (account_id : AccountId) : Bool :=
  if index ≥ start ∧ count < limit then
    match mapLookup ts account_id with
    | some timestamp => decide (now > timestamp + ONE_YEAR_MS)
    | none => false
  else false

/-- The scan loop of `get_inactive_accounts` (src/state.rs lines 266-281):
walks the registered-accounts index carrying `index` and `count`, pushing
accounts inactive for more than a year, and stops once `index` reaches `stop`
(named `end` in the source). -/
def inactiveLoop (ts : List (AccountId × Nat)) (now start stop limit : Nat) :
    List AccountId → Nat → Nat → List AccountId
  | [], _, _ => []
  | account_id :: rest, index, count =>
    let hit := inactiveHit ts now start limit index count account_id
    let here := if hit then [account_id] else []
    let count1 := if hit then count + 1 else count
    if index + 1 ≥ stop then here
    else here ++ inactiveLoop ts now start stop limit rest (index + 1) count1

/-- `get_inactive_accounts` (src/state.rs lines 258-283); the
`assert!(limit <= 100)` panic is modelled as `none`. -/
def get_inactive_accounts (s : AuthContractState) (limit offset now : Nat) :
    Option (List AccountId) :=
  if limit > 100 then none
  else
    some (inactiveLoop s.last_active_timestamps now offset (offset + limit) limit
      s.registered_accounts 0 0)

/-- `get_key_info` (src/state.rs lines 285-289). -/
def get_key_info (s : AuthContractState) (account_id : AccountId)
    (public_key : PublicKey) : Option KeyInfo :=
  (mapLookup s.keys account_id).bind
    (fun key_set => key_set.find? (fun k => k.public_key == public_key))

/-- Overwrite a record's expiration with an absolute timestamp. -/
def resetExpiration (k : KeyInfo) (t : Nat) : KeyInfo :=
  { k with expiration_timestamp := some t }

/-- Modelled from the spec: `extend_key_expiration` appears in the spec's
operation surface and section 4.1 but is absent from the source files under
src/.  Per the spec it fails `Unauthorized` when the caller is not the account,
fails `KeyNotFound` when the account holds no record for the key, and otherwise
sets `expiration_timestamp = now + additional_days*86_400_000` on the existing
record (absolute reset), leaving the other fields unchanged. -/
def extend_key_expiration (s : AuthContractState) (caller account_id : AccountId)
    (public_key : PublicKey) (additional_days : Nat) (now : Nat) :
    Option AuthError × AuthContractState :=
  if caller ≠ account_id then (some AuthError.Unauthorized, s)
  else
    match mapLookup s.keys account_id with
    | none => (some AuthError.KeyNotFound, s)
    | some key_set =>
      match key_set.find? (fun k => k.public_key == public_key) with
      | none => (some AuthError.KeyNotFound, s)
      | some _ =>
        let key_set1 := key_set.map (fun k =>
          if k.public_key == public_key then
            resetExpiration k (now + additional_days * 86400000)
          else k)
        (none, { s with keys := mapInsert s.keys account_id key_set1 })

/-- A mutation request against the store: one constructor per fallible mutating
entry point of src/state.rs. -/
inductive MutOp where
  | register (caller account_id : AccountId) (public_key : PublicKey)
      (expiration_days : Option Nat) (multi : Bool) (multi_sig_threshold : Option Nat)
  | remove (caller account_id : AccountId) (public_key : PublicKey)
  | rotate (caller account_id : AccountId) (old_public_key new_public_key : PublicKey)
      (expiration_days : Option Nat) (multi : Bool) (multi_sig_threshold : Option Nat)
  | removeExpired (account_id : AccountId)
  | removeInactive (account_id : AccountId)

/-- Dispatch a mutation request to the corresponding operation. -/
def runMut (s : AuthContractState) (op : MutOp) (now : Nat) :
    Option AuthError × AuthContractState :=
  match op with
  | MutOp.register caller account_id public_key expiration_days multi th =>
    register_key s caller account_id public_key expiration_days multi th now
  | MutOp.remove caller account_id public_key =>
    remove_key s caller account_id public_key
  | MutOp.rotate caller account_id old_pk new_pk expiration_days multi th =>
    rotate_key s caller account_id old_pk new_pk expiration_days multi th now
  | MutOp.removeExpired account_id => remove_expired_keys s account_id now
  | MutOp.removeInactive account_id => remove_inactive_accounts s account_id now

/-- States reachable from the empty store by the contract's operations. -/
inductive Reachable : AuthContractState → Prop where
  | empty : Reachable emptyState
  | mutate (s : AuthContractState) (op : MutOp) (now : Nat) :
      Reachable s → Reachable (runMut s op now).2
  | authorize (s : AuthContractState) (account_id : AccountId)
      (public_key : PublicKey) (signatures : Option (List SigBlob)) (now : Nat) :
      Reachable s → Reachable (is_authorized s account_id public_key signatures now).2

/-- The account-existence consistency invariant of the spec's data model: an
account has a key-map entry iff that entry holds at least one record iff the
account is in the registered-accounts index iff it has an activity
timestamp. -/
def StateConsistent (s : AuthContractState) : Prop :=
  ∀ a, ((mapLookup s.keys a).isSome ↔ a ∈ s.registered_accounts)
    ∧ ((mapLookup s.keys a).isSome ↔ (mapLookup s.last_active_timestamps a).isSome)
    ∧ ∀ ks, mapLookup s.keys a = some ks → ks ≠ []

/-- A 32-byte public key used in concrete test states. -/
def pk32 : PublicKey := List.replicate 32 1

/-- A second, distinct 32-byte public key. -/
def pk32b : PublicKey := List.replicate 32 2

/-- The store after registering one plain key (no expiration, single-sig) for
`alice` at time 0. -/
def demoSingle : AuthContractState :=
  (register_key emptyState "alice" "alice" pk32 none false none 0).2

/-- The store after registering one key with a one-day expiration for `alice`
at time 0. -/
def demoExpiring : AuthContractState :=
  (register_key emptyState "alice" "alice" pk32 (some 1) false none 0).2

/-- The store after registering one multi-sig key with threshold 3 for `alice`
at time 0. -/
def demoMulti : AuthContractState :=
  (register_key emptyState "alice" "alice" pk32 none true (some 3) 0).2

/-! ### Lemmas about the collaborator containers -/

theorem mapLookup_insert {β : Type} (l : List (AccountId × β)) (k k1 : AccountId)
    (v : β) :
    mapLookup (mapInsert l k v) k1 = if k1 = k then some v else mapLookup l k1 := by
  induction l with
  | nil => simp [mapInsert, mapLookup]
  | cons p rest ih =>
    obtain ⟨ka, va⟩ := p
    simp only [mapInsert]
    by_cases hk : k = ka <;> by_cases h1 : k1 = ka <;> by_cases h2 : k1 = k <;>
      simp_all [mapLookup]

theorem mapLookup_remove {β : Type} (l : List (AccountId × β)) (k k1 : AccountId) :
    mapLookup (mapRemove l k) k1 = if k1 = k then none else mapLookup l k1 := by
  induction l with
  | nil => simp [mapRemove, mapLookup]
  | cons p rest ih =>
    obtain ⟨ka, va⟩ := p
    simp only [mapRemove, List.filter_cons] at ih ⊢
    by_cases hk : ka = k <;> by_cases h1 : k1 = k <;> by_cases h2 : k1 = ka <;>
      simp_all [mapLookup]

theorem mem_setInsert {α : Type} [DecidableEq α] (l : List α) (a b : α) :
    b ∈ setInsert l a ↔ b ∈ l ∨ b = a := by
  unfold setInsert
  by_cases h : a ∈ l
  · simp only [if_pos h]
    constructor
    · exact Or.inl
    · rintro (hb | rfl)
      · exact hb
      · exact h
  · simp [if_neg h]

theorem mem_setRemove {α : Type} [DecidableEq α] (l : List α) (a b : α) :
    b ∈ setRemove l a ↔ b ∈ l ∧ b ≠ a := by
  simp [setRemove, List.mem_filter]

theorem lazyCreate_keys_lookup (s : AuthContractState) (account_id : AccountId) :
    mapLookup (lazyCreate s account_id).keys account_id =
      some ((mapLookup s.keys account_id).getD []) := by
  unfold lazyCreate
  cases h : mapLookup s.keys account_id <;> simp [h, mapLookup_insert]

theorem lazyCreate_keys_lookup_ne (s : AuthContractState) (a account_id : AccountId)
    (hne : a ≠ account_id) :
    mapLookup (lazyCreate s account_id).keys a = mapLookup s.keys a := by
  unfold lazyCreate
  cases h : mapLookup s.keys account_id <;> simp [h, mapLookup_insert, hne]

theorem lazyCreate_ts (s : AuthContractState) (account_id : AccountId) :
    (lazyCreate s account_id).last_active_timestamps = s.last_active_timestamps := by
  unfold lazyCreate
  cases h : mapLookup s.keys account_id <;> simp [h]

/-! ### The authorization decision in closed form -/

theorem is_authorized_fst (s : AuthContractState) (account_id : AccountId)
    (public_key : PublicKey) (signatures : Option (List SigBlob)) (now : Nat)
    (key_set : List KeyInfo) (key_info : KeyInfo)
    (hks : mapLookup s.keys account_id = some key_set)
    (hfind : key_set.find? (fun k => k.public_key == public_key) = some key_info) :
    (is_authorized s account_id public_key signatures now).1 =
      (! isExpired key_info.expiration_timestamp now
        && policyDecision key_info signatures) := by
  simp only [is_authorized, hks, hfind]
  cases hexp : isExpired key_info.expiration_timestamp now
  · cases hpol : policyDecision key_info signatures <;> simp [hexp, hpol]
  · simp [hexp]

/-! ### C1: the single-signature authorization path -/

/-- C1 counterexample: `alice` holds a registered, non-expired, non-multi-sig
32-byte key, no signature blob at all is supplied, yet `is_authorized` returns
true — refuting the claim that it returns true only when exactly one 64-byte
signature is supplied and cryptographically verifies. -/
theorem C1_zero_signatures_still_authorized :
    get_key_info demoSingle "alice" pk32 =
      some { public_key := pk32, expiration_timestamp := none,
             is_multi_sig := false, multi_sig_threshold := none }
    ∧ pk32.length = 32
    ∧ (is_authorized demoSingle "alice" pk32 (some []) 5).1 = true := by
  decide

/-- C1 (amended): for every account holding a registered, non-expired,
non-multi-sig key, `is_authorized` returns true regardless of the signatures
argument; the code performs no signature-count, length or cryptographic check
(it does not even receive a payload). -/
theorem C1_single_sig_ignores_signatures (s : AuthContractState)
    (account_id : AccountId) (public_key : PublicKey)
    (signatures : Option (List SigBlob)) (now : Nat)
    (key_set : List KeyInfo) (key_info : KeyInfo)
    (hks : mapLookup s.keys account_id = some key_set)
    (hfind : key_set.find? (fun k => k.public_key == public_key) = some key_info)
    (hsingle : key_info.is_multi_sig = false)
    (hlive : isExpired key_info.expiration_timestamp now = false) :
    (is_authorized s account_id public_key signatures now).1 = true := by
  rw [is_authorized_fst s account_id public_key signatures now key_set key_info hks
    hfind]
  simp [hlive, policyDecision, hsingle]

/-- C1 witness: the amended claim applied to a concrete store and two different
signature arguments (none, and one 3-byte blob). -/
theorem C1_single_sig_ignores_signatures_witness :
    (is_authorized demoSingle "alice" pk32 none 5).1 = true
    ∧ (is_authorized demoSingle "alice" pk32 (some [[1, 2, 3]]) 5).1 = true :=
  ⟨C1_single_sig_ignores_signatures demoSingle "alice" pk32 none 5
      [{ public_key := pk32, expiration_timestamp := none, is_multi_sig := false,
         multi_sig_threshold := none }]
      { public_key := pk32, expiration_timestamp := none, is_multi_sig := false,
        multi_sig_threshold := none }
      (by decide) (by decide) (by decide) (by decide),
    C1_single_sig_ignores_signatures demoSingle "alice" pk32 (some [[1, 2, 3]]) 5
      [{ public_key := pk32, expiration_timestamp := none, is_multi_sig := false,
         multi_sig_threshold := none }]
      { public_key := pk32, expiration_timestamp := none, is_multi_sig := false,
        multi_sig_threshold := none }
      (by decide) (by decide) (by decide) (by decide)⟩

/-! ### C2: re-registering the same public key -/

/-- C2: registering the same `(account, key)` a second time with different
policy arguments is NOT rejected: the call succeeds and the account ends up
with two records carrying the same public key, so the second call does change
the account's key count.  The full-record set membership test of
src/state.rs line 104 only catches byte-identical records. -/
theorem C2_reregistration_not_rejected :
    (register_key demoSingle "alice" "alice" pk32 none true (some 2) 0).1 = none
    ∧ ((mapLookup (register_key demoSingle "alice" "alice" pk32 none true (some 2)
        0).2.keys "alice").getD []).map KeyInfo.public_key = [pk32, pk32] := by
  decide

/-! ### C3: removing a key that was registered with non-default policy -/

/-- C3: `alice` holds exactly one record for `pk32` (with an expiration), the
caller equals the account, yet `remove_key` fails with `KeyNotFound` and leaves
the record in place: src/state.rs lines 130-135 look up the record to delete
with `expiration_timestamp: None, is_multi_sig: false, multi_sig_threshold:
None`, which misses any record registered with non-default fields. -/
theorem C3_remove_misses_nondefault_record :
    get_key_info demoExpiring "alice" pk32 =
      some { public_key := pk32, expiration_timestamp := some 86400000,
             is_multi_sig := false, multi_sig_threshold := none }
    ∧ (remove_key demoExpiring "alice" "alice" pk32).1 = some AuthError.KeyNotFound
    ∧ (remove_key demoExpiring "alice" "alice" pk32).2 = demoExpiring := by
  decide

/-! ### C4: no threshold validation at registration -/

/-- C4 counterexample: registering a multi-sig key with threshold 11 succeeds
(`AuthError` has no `InvalidThreshold` variant at all) and the stored record
carries `multi_sig_threshold = some 11`. -/
theorem C4_threshold_eleven_accepted :
    (register_key emptyState "alice" "alice" pk32 none true (some 11) 0).1 = none
    ∧ get_key_info
        (register_key emptyState "alice" "alice" pk32 none true (some 11) 0).2
        "alice" pk32 =
      some { public_key := pk32, expiration_timestamp := none,
             is_multi_sig := true, multi_sig_threshold := some 11 } := by
  decide

/-- C4 (amended): `register_key` performs no threshold validation: for every
caller equal to the target account and every threshold greater than 10, as long
as the byte-identical record is not already present, the call succeeds and the
record with that oversized threshold is inserted. -/
theorem C4_threshold_never_validated (s : AuthContractState)
    (account_id : AccountId) (public_key : PublicKey)
    (expiration_days : Option Nat) (multi : Bool) (threshold now : Nat)
    (h10 : 10 < threshold)
    (hnew : mkKeyInfo public_key expiration_days multi (some threshold) now
        ∉ (mapLookup s.keys account_id).getD []) :
    (register_key s account_id account_id public_key expiration_days multi
        (some threshold) now).1 = none
    ∧ mkKeyInfo public_key expiration_days multi (some threshold) now
        ∈ (mapLookup (register_key s account_id account_id public_key
            expiration_days multi (some threshold) now).2.keys account_id).getD [] := by
  have hset : (mapLookup (lazyCreate s account_id).keys account_id).getD []
      = (mapLookup s.keys account_id).getD [] := by
    rw [lazyCreate_keys_lookup]
    rfl
  have hne : ¬ (account_id ≠ account_id) := by simp
  simp only [register_key, if_neg hne, hset, if_neg hnew]
  refine ⟨trivial, ?_⟩
  rw [mapLookup_insert]
  simp

/-- C4 witness: the amended claim applied at threshold 11 on the empty store. -/
theorem C4_threshold_never_validated_witness :
    (register_key emptyState "alice" "alice" pk32 none true (some 11) 0).1 = none :=
  (C4_threshold_never_validated emptyState "alice" pk32 none true 11 0 (by decide)
    (by decide)).1

/-! ### C5: extend_key_expiration (spec-modelled) -/

/-- C5: for a caller equal to the target account holding a record for the key,
`extend_key_expiration` succeeds and resets that record's expiration to exactly
`now + additional_days * 86_400_000` (absolute, not added to the prior value),
leaving its other fields unchanged and keeping every record for other keys. -/
theorem C5_extend_expiration_absolute_reset (s : AuthContractState)
    (account_id : AccountId) (public_key : PublicKey) (additional_days now : Nat)
    (key_set : List KeyInfo) (key_info : KeyInfo)
    (hks : mapLookup s.keys account_id = some key_set)
    (hfind : key_set.find? (fun k => k.public_key == public_key) = some key_info) :
    (extend_key_expiration s account_id account_id public_key additional_days
        now).1 = none
    ∧ ∃ key_set1,
        mapLookup (extend_key_expiration s account_id account_id public_key
            additional_days now).2.keys account_id = some key_set1
        ∧ (∀ k ∈ key_set, k.public_key = public_key →
            resetExpiration k (now + additional_days * 86400000) ∈ key_set1)
        ∧ (∀ k ∈ key_set, k.public_key ≠ public_key → k ∈ key_set1) := by
  have hne : ¬ (account_id ≠ account_id) := by simp
  simp only [extend_key_expiration, if_neg hne, hks, hfind]
  refine ⟨trivial,
    key_set.map (fun k => if k.public_key == public_key then
      resetExpiration k (now + additional_days * 86400000) else k), ?_, ?_, ?_⟩
  · rw [mapLookup_insert]
    simp
  · intro k hk hpk
    have : (if k.public_key == public_key then
        resetExpiration k (now + additional_days * 86400000)
      else k) = resetExpiration k (now + additional_days * 86400000) := by
      simp [hpk]
    rw [← this]
    exact List.mem_map_of_mem _ hk
  · intro k hk hpk
    have : (if k.public_key == public_key then
        resetExpiration k (now + additional_days * 86400000)
      else k) = k := by
      simp [hpk]
    rw [← this]
    exact List.mem_map_of_mem _ hk

/-- C5 witness: extending the plain key of `demoSingle` by 2 days at time 5
succeeds. -/
theorem C5_extend_expiration_absolute_reset_witness :
    (extend_key_expiration demoSingle "alice" "alice" pk32 2 5).1 = none :=
  (C5_extend_expiration_absolute_reset demoSingle "alice" pk32 2 5
    [{ public_key := pk32, expiration_timestamp := none, is_multi_sig := false,
       multi_sig_threshold := none }]
    { public_key := pk32, expiration_timestamp := none, is_multi_sig := false,
      multi_sig_threshold := none }
    (by decide) (by decide)).1

/-! ### C6: the multi-signature path counts blobs -/

/-- C6: for a registered, non-expired multi-sig key, `is_authorized` returns
true iff the number of supplied blobs (0 when the list is missing) reaches
`multi_sig_threshold.unwrap_or(1)` — for every signatures argument, so the
decision is independent of the bytes inside the blobs (and no payload exists to
depend on). -/
theorem C6_multi_sig_counts_blobs (s : AuthContractState) (account_id : AccountId)
    (public_key : PublicKey) (signatures : Option (List SigBlob)) (now : Nat)
    (key_set : List KeyInfo) (key_info : KeyInfo)
    (hks : mapLookup s.keys account_id = some key_set)
    (hfind : key_set.find? (fun k => k.public_key == public_key) = some key_info)
    (hmulti : key_info.is_multi_sig = true)
    (hlive : isExpired key_info.expiration_timestamp now = false) :
    ((is_authorized s account_id public_key signatures now).1 = true ↔
      key_info.multi_sig_threshold.getD 1 ≤ (signatures.getD []).length) := by
  rw [is_authorized_fst s account_id public_key signatures now key_set key_info hks
    hfind]
  simp [hlive, policyDecision, hmulti]

/-- C6 witness: three garbage one-byte blobs meet `demoMulti`'s threshold 3. -/
theorem C6_multi_sig_counts_blobs_witness :
    (is_authorized demoMulti "alice" pk32 (some [[0], [0], [0]]) 5).1 = true :=
  (C6_multi_sig_counts_blobs demoMulti "alice" pk32 (some [[0], [0], [0]]) 5
    [{ public_key := pk32, expiration_timestamp := none, is_multi_sig := true,
       multi_sig_threshold := some 3 }]
    { public_key := pk32, expiration_timestamp := none, is_multi_sig := true,
      multi_sig_threshold := some 3 }
    (by decide) (by decide) (by decide) (by decide)).mpr (by decide)

/-! ### C7: expiration gating -/

/-- C7: for a registered key found for `(account, key)`: when its expiration is
`some e` and `e < now`, `is_authorized` returns false (a plain `false`, no
error); when `now ≤ e`, and likewise when no expiration is set, the result is
exactly the signature/threshold rule for the key's policy. -/
theorem C7_expiration_soft_fail (s : AuthContractState) (account_id : AccountId)
    (public_key : PublicKey) (signatures : Option (List SigBlob)) (now : Nat)
    (key_set : List KeyInfo) (key_info : KeyInfo)
    (hks : mapLookup s.keys account_id = some key_set)
    (hfind : key_set.find? (fun k => k.public_key == public_key) = some key_info) :
    (∀ e, key_info.expiration_timestamp = some e → e < now →
      (is_authorized s account_id public_key signatures now).1 = false)
    ∧ (∀ e, key_info.expiration_timestamp = some e → now ≤ e →
      (is_authorized s account_id public_key signatures now).1 =
        policyDecision key_info signatures)
    ∧ (key_info.expiration_timestamp = none →
      (is_authorized s account_id public_key signatures now).1 =
        policyDecision key_info signatures) := by
  refine ⟨?_, ?_, ?_⟩
  · intro e he hlt
    rw [is_authorized_fst s account_id public_key signatures now key_set key_info
      hks hfind]
    simp [isExpired, he, hlt]
  · intro e he hle
    have hnot : ¬ (e < now) := by omega
    rw [is_authorized_fst s account_id public_key signatures now key_set key_info
      hks hfind]
    simp [isExpired, he, hnot]
  · intro hnone
    rw [is_authorized_fst s account_id public_key signatures now key_set key_info
      hks hfind]
    simp [isExpired, hnone]

/-- C7 witness: the one-day key of `demoExpiring` (expiration 86400000 ms) is
refused one millisecond after expiry and still decided by the policy rule at
the expiration instant itself. -/
theorem C7_expiration_soft_fail_witness :
    (is_authorized demoExpiring "alice" pk32 none 86400001).1 = false
    ∧ (is_authorized demoExpiring "alice" pk32 none 86400000).1 = true :=
  ⟨(C7_expiration_soft_fail demoExpiring "alice" pk32 none 86400001
      [{ public_key := pk32, expiration_timestamp := some 86400000,
         is_multi_sig := false, multi_sig_threshold := none }]
      { public_key := pk32, expiration_timestamp := some 86400000,
        is_multi_sig := false, multi_sig_threshold := none }
      (by decide) (by decide)).1 86400000 (by decide) (by decide),
    by
      have h := (C7_expiration_soft_fail demoExpiring "alice" pk32 none 86400000
        [{ public_key := pk32, expiration_timestamp := some 86400000,
           is_multi_sig := false, multi_sig_threshold := none }]
        { public_key := pk32, expiration_timestamp := some 86400000,
          is_multi_sig := false, multi_sig_threshold := none }
        (by decide) (by decide)).2.1 86400000 (by decide) (by decide)
      rw [h]
      decide⟩

/-! ### C9: the inactive-accounts scan -/

theorem inactiveHit_count_lt (ts : List (AccountId × Nat))
    (now start limit index count : Nat) (account_id : AccountId)
    (h : inactiveHit ts now start limit index count account_id = true) :
    count < limit := by
  unfold inactiveHit at h
  by_cases hc : index ≥ start ∧ count < limit
  · exact hc.2
  · rw [if_neg hc] at h
    cases h

theorem inactiveHit_inactive (ts : List (AccountId × Nat))
    (now start limit index count : Nat) (account_id : AccountId)
    (h : inactiveHit ts now start limit index count account_id = true) :
    ∃ t, mapLookup ts account_id = some t ∧ now > t + ONE_YEAR_MS := by
  unfold inactiveHit at h
  by_cases hc : index ≥ start ∧ count < limit
  · rw [if_pos hc] at h
    cases hl : mapLookup ts account_id with
    | none => rw [hl] at h; cases h
    | some t =>
      rw [hl] at h
      exact ⟨t, rfl, of_decide_eq_true h⟩
  · rw [if_neg hc] at h
    cases h

theorem inactiveLoop_length (ts : List (AccountId × Nat)) (now start stop limit : Nat)
    (l : List AccountId) :
    ∀ index count,
      (inactiveLoop ts now start stop limit l index count).length ≤ limit - count := by
  induction l with
  | nil => intro index count; simp [inactiveLoop]
  | cons b rest ih =>
    intro index count
    simp only [inactiveLoop]
    cases hhit : inactiveHit ts now start limit index count b
    · by_cases hstop : index + 1 ≥ stop
      · simp [hstop]
      · have := ih (index + 1) count
        simp only [if_neg hstop]
        simpa using this
    · have hcl : count < limit := inactiveHit_count_lt ts now start limit index count b hhit
      by_cases hstop : index + 1 ≥ stop
      · rw [if_pos hstop]
        simp only [if_true]
        simp
        omega
      · have := ih (index + 1) (count + 1)
        rw [if_neg hstop]
        simp only [if_true, List.singleton_append, List.length_cons]
        omega

theorem inactiveLoop_mem (ts : List (AccountId × Nat)) (now start stop limit : Nat)
    (l : List AccountId) :
    ∀ index count a, a ∈ inactiveLoop ts now start stop limit l index count →
      a ∈ l ∧ ∃ t, mapLookup ts a = some t ∧ now > t + ONE_YEAR_MS := by
  induction l with
  | nil => intro index count a h; simp [inactiveLoop] at h
  | cons b rest ih =>
    intro index count a h
    simp only [inactiveLoop] at h
    cases hhit : inactiveHit ts now start limit index count b <;> rw [hhit] at h
    · by_cases hstop : index + 1 ≥ stop
      · rw [if_pos hstop] at h
        simp at h
      · rw [if_neg hstop] at h
        simp only [Bool.false_eq_true, if_false, List.nil_append] at h
        obtain ⟨hmem, hw⟩ := ih (index + 1) count a h
        exact ⟨List.mem_cons_of_mem b hmem, hw⟩
    · by_cases hstop : index + 1 ≥ stop
      · rw [if_pos hstop] at h
        simp only [if_true, List.mem_singleton] at h
        subst h
        exact ⟨List.mem_cons_self a rest,
          inactiveHit_inactive ts now start limit index count a hhit⟩
      · rw [if_neg hstop] at h
        simp only [if_true, List.singleton_append, List.mem_cons] at h
        rcases h with rfl | h
        · exact ⟨List.mem_cons_self a rest,
            inactiveHit_inactive ts now start limit index count a hhit⟩
        · obtain ⟨hmem, hw⟩ := ih (index + 1) (count + 1) a h
          exact ⟨List.mem_cons_of_mem b hmem, hw⟩

/-- C9: with `limit ≤ 100`, `get_inactive_accounts` answers with at most
`limit` accounts, each taken from the registered-accounts index and each
bearing an activity timestamp more than one year (31_536_000_000 ms) before
`now`; with `limit > 100` the assertion fires and no result is produced. -/
theorem C9_inactive_accounts_bounded (s : AuthContractState) (limit offset now : Nat) :
    (100 < limit → get_inactive_accounts s limit offset now = none)
    ∧ (limit ≤ 100 →
        ∃ l, get_inactive_accounts s limit offset now = some l
          ∧ l.length ≤ limit
          ∧ ∀ a ∈ l, a ∈ s.registered_accounts
              ∧ ∃ t, mapLookup s.last_active_timestamps a = some t
                  ∧ now > t + ONE_YEAR_MS) := by
  constructor
  · intro h
    simp [get_inactive_accounts, h]
  · intro h
    have hno : ¬ (limit > 100) := by omega
    refine ⟨inactiveLoop s.last_active_timestamps now offset (offset + limit) limit
      s.registered_accounts 0 0, by simp [get_inactive_accounts, hno], ?_, ?_⟩
    · have := inactiveLoop_length s.last_active_timestamps now offset (offset + limit)
        limit s.registered_accounts 0 0
      omega
    · intro a ha
      exact inactiveLoop_mem s.last_active_timestamps now offset (offset + limit)
        limit s.registered_accounts 0 0 a ha

/-- C9 witness: the oversized limit 101 is rejected, and a well-formed call on
a concrete store returns at most one in-window inactive account. -/
theorem C9_inactive_accounts_bounded_witness :
    get_inactive_accounts demoSingle 101 0 31536000002 = none
    ∧ ∃ l, get_inactive_accounts demoSingle 100 0 31536000002 = some l
        ∧ l.length ≤ 100 :=
  ⟨(C9_inactive_accounts_bounded demoSingle 101 0 31536000002).1 (by decide),
    by
      obtain ⟨l, hl, hlen, _⟩ :=
        (C9_inactive_accounts_bounded demoSingle 100 0 31536000002).2 (by decide)
      exact ⟨l, hl, hlen⟩⟩

/-! ### C10: mutations are atomic on failure -/

theorem register_key_error_frame (s : AuthContractState) (caller account_id : AccountId)
    (public_key : PublicKey) (expiration_days : Option Nat) (multi : Bool)
    (th : Option Nat) (now : Nat) (e : AuthError)
    (h : (register_key s caller account_id public_key expiration_days multi th
        now).1 = some e) :
    (register_key s caller account_id public_key expiration_days multi th now).2 = s := by
  by_cases hc : caller ≠ account_id
  · simp [register_key, hc]
  · cases hl : mapLookup s.keys account_id with
    | none =>
      have hnone : (register_key s caller account_id public_key expiration_days multi
          th now).1 = none := by
        simp [register_key, hc, lazyCreate, hl, mapLookup_insert]
      rw [hnone] at h
      cases h
    | some ks =>
      have hlc : lazyCreate s account_id = s := by simp [lazyCreate, hl]
      by_cases hmem : mkKeyInfo public_key expiration_days multi th now ∈ ks
      · simp [register_key, hc, hlc, hl, hmem]
      · have hnone : (register_key s caller account_id public_key expiration_days multi
            th now).1 = none := by
          simp [register_key, hc, hlc, hl, hmem]
        rw [hnone] at h
        cases h

theorem remove_key_error_frame (s : AuthContractState) (caller account_id : AccountId)
    (public_key : PublicKey) (e : AuthError)
    (h : (remove_key s caller account_id public_key).1 = some e) :
    (remove_key s caller account_id public_key).2 = s := by
  by_cases hc : caller ≠ account_id
  · simp [remove_key, hc]
  · cases hl : mapLookup s.keys account_id with
    | none => simp [remove_key, hc, hl]
    | some ks =>
      by_cases hmem : defaultKeyInfo public_key ∈ ks
      · exfalso
        by_cases hemp : (setRemove ks (defaultKeyInfo public_key)).isEmpty
        · simp [remove_key, hc, hl, hmem, hemp] at h
        · simp [remove_key, hc, hl, hmem, hemp] at h
      · simp [remove_key, hc, hl, hmem]

theorem rotate_key_error_frame (s : AuthContractState) (caller account_id : AccountId)
    (old_public_key new_public_key : PublicKey) (expiration_days : Option Nat)
    (multi : Bool) (th : Option Nat) (now : Nat) (e : AuthError)
    (h : (rotate_key s caller account_id old_public_key new_public_key
        expiration_days multi th now).1 = some e) :
    (rotate_key s caller account_id old_public_key new_public_key expiration_days
        multi th now).2 = s := by
  by_cases hc : caller ≠ account_id
  · simp [rotate_key, hc]
  · cases hl : mapLookup s.keys account_id with
    | none => simp [rotate_key, hc, hl]
    | some ks =>
      by_cases hold : defaultKeyInfo old_public_key ∈ ks
      · by_cases hnew : mkKeyInfo new_public_key expiration_days multi th now ∈ ks
        · simp [rotate_key, hc, hl, hold, hnew]
        · exfalso
          simp [rotate_key, hc, hl, hold, hnew] at h
      · simp [rotate_key, hc, hl, hold]

theorem remove_expired_keys_error_frame (s : AuthContractState)
    (account_id : AccountId) (now : Nat) (e : AuthError)
    (h : (remove_expired_keys s account_id now).1 = some e) :
    (remove_expired_keys s account_id now).2 = s := by
  cases hl : mapLookup s.keys account_id with
  | none => simp [remove_expired_keys, hl]
  | some ks =>
    exfalso
    by_cases hemp : (ks.filter (fun k => ! isExpired k.expiration_timestamp now)).isEmpty
    · simp [remove_expired_keys, hl, hemp] at h
    · simp [remove_expired_keys, hl, hemp] at h

theorem remove_inactive_accounts_error_frame (s : AuthContractState)
    (account_id : AccountId) (now : Nat) (e : AuthError)
    (h : (remove_inactive_accounts s account_id now).1 = some e) :
    (remove_inactive_accounts s account_id now).2 = s := by
  cases hts : mapLookup s.last_active_timestamps account_id with
  | none => simp [remove_inactive_accounts, hts]
  | some last_active =>
    by_cases hact : now ≤ last_active + ONE_YEAR_MS
    · simp [remove_inactive_accounts, hts, hact]
    · cases hl : mapLookup s.keys account_id with
      | none => simp [remove_inactive_accounts, hts, hact, hl]
      | some ks =>
        exfalso
        simp [remove_inactive_accounts, hts, hact, hl] at h

/-- C10: whenever a mutating entry point (`register_key`, `remove_key`,
`rotate_key`, `remove_expired_keys`, `remove_inactive_accounts`) reports an
error, the whole store — key map, activity timestamps and account index — is
exactly the state it held before the call; in particular a `KeyAlreadyExists`
from `rotate_key` leaves the old key's record untouched. -/
theorem C10_mutations_atomic_on_error (s : AuthContractState) (op : MutOp)
    (now : Nat) (e : AuthError) (h : (runMut s op now).1 = some e) :
    (runMut s op now).2 = s := by
  cases op with
  | register caller account_id public_key expiration_days multi th =>
    exact register_key_error_frame s caller account_id public_key expiration_days
      multi th now e h
  | remove caller account_id public_key =>
    exact remove_key_error_frame s caller account_id public_key e h
  | rotate caller account_id old_pk new_pk expiration_days multi th =>
    exact rotate_key_error_frame s caller account_id old_pk new_pk expiration_days
      multi th now e h
  | removeExpired account_id =>
    exact remove_expired_keys_error_frame s account_id now e h
  | removeInactive account_id =>
    exact remove_inactive_accounts_error_frame s account_id now e h

/-- C10 witness: `remove_inactive_accounts` on a fresh account fails with
`AccountStillActive` and leaves the store intact; a rotation whose new record
already exists fails with `KeyAlreadyExists` and also leaves the store (old
record included) intact. -/
theorem C10_mutations_atomic_on_error_witness :
    (runMut demoSingle (MutOp.removeInactive "alice") 5).2 = demoSingle
    ∧ (runMut demoSingle
        (MutOp.rotate "alice" "alice" pk32 pk32 none false none) 0).2 = demoSingle :=
  ⟨C10_mutations_atomic_on_error demoSingle (MutOp.removeInactive "alice") 5
      AuthError.AccountStillActive (by decide),
    C10_mutations_atomic_on_error demoSingle
      (MutOp.rotate "alice" "alice" pk32 pk32 none false none) 0
      AuthError.KeyAlreadyExists (by decide)⟩

/-! ### C8: preservation of the account-existence invariant -/

theorem consistent_of_lookups (s s1 : AuthContractState) (acc : AccountId)
    (ks1 : List KeyInfo) (h : StateConsistent s) (hne : ks1 ≠ [])
    (hk_acc : mapLookup s1.keys acc = some ks1)
    (ht_acc : (mapLookup s1.last_active_timestamps acc).isSome = true)
    (hr_acc : acc ∈ s1.registered_accounts)
    (hk : ∀ a, a ≠ acc → mapLookup s1.keys a = mapLookup s.keys a)
    (ht : ∀ a, a ≠ acc →
      mapLookup s1.last_active_timestamps a = mapLookup s.last_active_timestamps a)
    (hr : ∀ a, a ≠ acc → (a ∈ s1.registered_accounts ↔ a ∈ s.registered_accounts)) :
    StateConsistent s1 := by
  intro a
  rcases h a with ⟨h1, h2, h3⟩
  by_cases ha : a = acc
  · subst ha
    refine ⟨?_, ?_, ?_⟩
    · rw [hk_acc]
      simp [hr_acc]
    · rw [hk_acc]
      simp [ht_acc]
    · intro ks hks
      rw [hk_acc] at hks
      exact (Option.some_inj.mp hks) ▸ hne
  · refine ⟨?_, ?_, ?_⟩
    · rw [hk a ha]
      exact h1.trans (hr a ha).symm
    · rw [hk a ha, ht a ha]
      exact h2
    · intro ks hks
      rw [hk a ha] at hks
      exact h3 ks hks

theorem consistent_of_purged (s s1 : AuthContractState) (acc : AccountId)
    (h : StateConsistent s)
    (hk_acc : mapLookup s1.keys acc = none)
    (ht_acc : mapLookup s1.last_active_timestamps acc = none)
    (hr_acc : acc ∉ s1.registered_accounts)
    (hk : ∀ a, a ≠ acc → mapLookup s1.keys a = mapLookup s.keys a)
    (ht : ∀ a, a ≠ acc →
      mapLookup s1.last_active_timestamps a = mapLookup s.last_active_timestamps a)
    (hr : ∀ a, a ≠ acc → (a ∈ s1.registered_accounts ↔ a ∈ s.registered_accounts)) :
    StateConsistent s1 := by
  intro a
  rcases h a with ⟨h1, h2, h3⟩
  by_cases ha : a = acc
  · subst ha
    refine ⟨?_, ?_, ?_⟩
    · rw [hk_acc]
      simp [hr_acc]
    · rw [hk_acc, ht_acc]
      exact Iff.rfl
    · intro ks hks
      rw [hk_acc] at hks
      cases hks
  · refine ⟨?_, ?_, ?_⟩
    · rw [hk a ha]
      exact h1.trans (hr a ha).symm
    · rw [hk a ha, ht a ha]
      exact h2
    · intro ks hks
      rw [hk a ha] at hks
      exact h3 ks hks

theorem consistent_purgeAccount (s : AuthContractState) (acc : AccountId)
    (h : StateConsistent s) : StateConsistent (purgeAccount s acc) := by
  refine consistent_of_purged s (purgeAccount s acc) acc h ?_ ?_ ?_ ?_ ?_ ?_
  · simp [purgeAccount, mapLookup_remove]
  · simp [purgeAccount, mapLookup_remove]
  · simp [purgeAccount, mem_setRemove]
  · intro a ha
    simp [purgeAccount, mapLookup_remove, ha]
  · intro a ha
    simp [purgeAccount, mapLookup_remove, ha]
  · intro a ha
    simp [purgeAccount, mem_setRemove, ha]

theorem consistent_empty : StateConsistent emptyState := by
  intro a
  refine ⟨?_, ?_, ?_⟩ <;> simp [emptyState, mapLookup]

theorem consistent_register (s : AuthContractState) (caller acc : AccountId)
    (pk : PublicKey) (ed : Option Nat) (m : Bool) (th : Option Nat) (now : Nat)
    (h : StateConsistent s) :
    StateConsistent (register_key s caller acc pk ed m th now).2 := by
  by_cases hc : caller ≠ acc
  · simpa [register_key, hc] using h
  · cases hl : mapLookup s.keys acc with
    | none =>
      have h2eq : (register_key s caller acc pk ed m th now).2 =
          { keys := mapInsert (mapInsert s.keys acc []) acc [mkKeyInfo pk ed m th now],
            last_active_timestamps := mapInsert s.last_active_timestamps acc now,
            registered_accounts := setInsert s.registered_accounts acc } := by
        simp [register_key, hc, lazyCreate, hl, mapLookup_insert]
      rw [h2eq]
      refine consistent_of_lookups s _ acc [mkKeyInfo pk ed m th now] h (by simp)
        ?_ ?_ ?_ ?_ ?_ ?_
      · simp [mapLookup_insert]
      · simp [mapLookup_insert]
      · simp [mem_setInsert]
      · intro a ha
        simp [mapLookup_insert, ha]
      · intro a ha
        simp [mapLookup_insert, ha]
      · intro a ha
        simp [mem_setInsert, ha]
    | some ks =>
      have hlc : lazyCreate s acc = s := by simp [lazyCreate, hl]
      by_cases hmem : mkKeyInfo pk ed m th now ∈ ks
      · have h2eq : (register_key s caller acc pk ed m th now).2 = s := by
          simp [register_key, hc, hlc, hl, hmem]
        rw [h2eq]
        exact h
      · have h2eq : (register_key s caller acc pk ed m th now).2 =
            { s with keys := mapInsert s.keys acc (ks ++ [mkKeyInfo pk ed m th now]),
                     last_active_timestamps :=
                       mapInsert s.last_active_timestamps acc now } := by
          simp [register_key, hc, hlc, hl, hmem]
        rw [h2eq]
        refine consistent_of_lookups s _ acc (ks ++ [mkKeyInfo pk ed m th now]) h
          (by simp) ?_ ?_ ?_ ?_ ?_ ?_
        · simp [mapLookup_insert]
        · simp [mapLookup_insert]
        · exact (h acc).1.mp (by simp [hl])
        · intro a ha
          simp [mapLookup_insert, ha]
        · intro a ha
          simp [mapLookup_insert, ha]
        · intro a ha
          exact Iff.rfl

theorem consistent_remove (s : AuthContractState) (caller acc : AccountId)
    (pk : PublicKey) (h : StateConsistent s) :
    StateConsistent (remove_key s caller acc pk).2 := by
  by_cases hc : caller ≠ acc
  · simpa [remove_key, hc] using h
  · cases hl : mapLookup s.keys acc with
    | none => simpa [remove_key, hc, hl] using h
    | some ks =>
      by_cases hmem : defaultKeyInfo pk ∈ ks
      · by_cases hemp : (setRemove ks (defaultKeyInfo pk)).isEmpty
        · have h2eq : (remove_key s caller acc pk).2 = purgeAccount s acc := by
            simp [remove_key, hc, hl, hmem, hemp]
          rw [h2eq]
          exact consistent_purgeAccount s acc h
        · have h2eq : (remove_key s caller acc pk).2 =
              { s with keys :=
                  mapInsert s.keys acc (setRemove ks (defaultKeyInfo pk)) } := by
            simp [remove_key, hc, hl, hmem, hemp]
          rw [h2eq]
          refine consistent_of_lookups s _ acc (setRemove ks (defaultKeyInfo pk)) h
            ?_ ?_ ?_ ?_ ?_ ?_ ?_
          · intro hnil
            rw [hnil] at hemp
            simp at hemp
          · simp [mapLookup_insert]
          · exact (h acc).2.1.mp (by simp [hl])
          · exact (h acc).1.mp (by simp [hl])
          · intro a ha
            simp [mapLookup_insert, ha]
          · intro a ha
            rfl
          · intro a ha
            exact Iff.rfl
      · simpa [remove_key, hc, hl, hmem] using h

theorem consistent_rotate (s : AuthContractState) (caller acc : AccountId)
    (old_pk new_pk : PublicKey) (ed : Option Nat) (m : Bool) (th : Option Nat)
    (now : Nat) (h : StateConsistent s) :
    StateConsistent (rotate_key s caller acc old_pk new_pk ed m th now).2 := by
  by_cases hc : caller ≠ acc
  · simpa [rotate_key, hc] using h
  · cases hl : mapLookup s.keys acc with
    | none => simpa [rotate_key, hc, hl] using h
    | some ks =>
      by_cases hold : defaultKeyInfo old_pk ∈ ks
      · by_cases hnew : mkKeyInfo new_pk ed m th now ∈ ks
        · simpa [rotate_key, hc, hl, hold, hnew] using h
        · have h2eq : (rotate_key s caller acc old_pk new_pk ed m th now).2 =
              { s with keys := mapInsert s.keys acc (setRemove ks (defaultKeyInfo old_pk) ++ [mkKeyInfo new_pk ed m th now]), last_active_timestamps := mapInsert s.last_active_timestamps acc now } := by
            simp [rotate_key, hc, hl, hold, hnew]
          rw [h2eq]
          refine consistent_of_lookups s _ acc
            (setRemove ks (defaultKeyInfo old_pk) ++ [mkKeyInfo new_pk ed m th now]) h
            (by simp) ?_ ?_ ?_ ?_ ?_ ?_
          · simp [mapLookup_insert]
          · simp [mapLookup_insert]
          · exact (h acc).1.mp (by simp [hl])
          · intro a ha
            simp [mapLookup_insert, ha]
          · intro a ha
            simp [mapLookup_insert, ha]
          · intro a ha
            exact Iff.rfl
      · simpa [rotate_key, hc, hl, hold] using h

theorem consistent_remove_expired (s : AuthContractState) (acc : AccountId)
    (now : Nat) (h : StateConsistent s) :
    StateConsistent (remove_expired_keys s acc now).2 := by
  cases hl : mapLookup s.keys acc with
  | none => simpa [remove_expired_keys, hl] using h
  | some ks =>
    by_cases hemp : (ks.filter (fun k => ! isExpired k.expiration_timestamp now)).isEmpty
    · have h2eq : (remove_expired_keys s acc now).2 = purgeAccount s acc := by
        simp [remove_expired_keys, hl, hemp]
      rw [h2eq]
      exact consistent_purgeAccount s acc h
    · have h2eq : (remove_expired_keys s acc now).2 =
          { s with keys := mapInsert s.keys acc (ks.filter (fun k => ! isExpired k.expiration_timestamp now)) } := by
        simp [remove_expired_keys, hl, hemp]
      rw [h2eq]
      refine consistent_of_lookups s _ acc
        (ks.filter (fun k => ! isExpired k.expiration_timestamp now)) h
        ?_ ?_ ?_ ?_ ?_ ?_ ?_
      · intro hnil
        rw [hnil] at hemp
        simp at hemp
      · simp [mapLookup_insert]
      · exact (h acc).2.1.mp (by simp [hl])
      · exact (h acc).1.mp (by simp [hl])
      · intro a ha
        simp [mapLookup_insert, ha]
      · intro a ha
        rfl
      · intro a ha
        exact Iff.rfl

theorem consistent_remove_inactive (s : AuthContractState) (acc : AccountId)
    (now : Nat) (h : StateConsistent s) :
    StateConsistent (remove_inactive_accounts s acc now).2 := by
  cases hts : mapLookup s.last_active_timestamps acc with
  | none => simpa [remove_inactive_accounts, hts] using h
  | some la =>
    by_cases hact : now ≤ la + ONE_YEAR_MS
    · simpa [remove_inactive_accounts, hts, hact] using h
    · cases hl : mapLookup s.keys acc with
      | none => simpa [remove_inactive_accounts, hts, hact, hl] using h
      | some ks =>
        have h2eq : (remove_inactive_accounts s acc now).2 = purgeAccount s acc := by
          simp [remove_inactive_accounts, hts, hact, hl]
        rw [h2eq]
        exact consistent_purgeAccount s acc h

theorem consistent_authorize (s : AuthContractState) (acc : AccountId)
    (pk : PublicKey) (sigs : Option (List SigBlob)) (now : Nat)
    (h : StateConsistent s) :
    StateConsistent (is_authorized s acc pk sigs now).2 := by
  cases hl : mapLookup s.keys acc with
  | none => simpa [is_authorized, hl] using h
  | some ks =>
    cases hfind : ks.find? (fun k => k.public_key == pk) with
    | none => simpa [is_authorized, hl, hfind] using h
    | some ki =>
      by_cases hexp : isExpired ki.expiration_timestamp now = true
      · simpa [is_authorized, hl, hfind, hexp] using h
      · cases hpol : policyDecision ki sigs
        · simpa [is_authorized, hl, hfind, hexp, hpol] using h
        · have h2eq : (is_authorized s acc pk sigs now).2 =
              { s with last_active_timestamps :=
                  mapInsert s.last_active_timestamps acc now } := by
            simp [is_authorized, hl, hfind, hexp, hpol]
          rw [h2eq]
          refine consistent_of_lookups s _ acc ks h ((h acc).2.2 ks hl) hl
            ?_ ?_ ?_ ?_ ?_
          · simp [mapLookup_insert]
          · exact (h acc).1.mp (by simp [hl])
          · intro a ha
            rfl
          · intro a ha
            simp [mapLookup_insert, ha]
          · intro a ha
            exact Iff.rfl

theorem consistent_runMut (s : AuthContractState) (op : MutOp) (now : Nat)
    (h : StateConsistent s) : StateConsistent (runMut s op now).2 := by
  cases op with
  | register caller account_id public_key expiration_days multi th =>
    exact consistent_register s caller account_id public_key expiration_days multi
      th now h
  | remove caller account_id public_key =>
    exact consistent_remove s caller account_id public_key h
  | rotate caller account_id old_pk new_pk expiration_days multi th =>
    exact consistent_rotate s caller account_id old_pk new_pk expiration_days multi
      th now h
  | removeExpired account_id => exact consistent_remove_expired s account_id now h
  | removeInactive account_id => exact consistent_remove_inactive s account_id now h

/-- C8: in every state reachable from the empty store by any sequence of
operations, each account's three representations agree — it has a key-map
entry iff that entry holds at least one record iff it sits in the
registered-accounts index iff it has a last-active timestamp — and once the
key-map entry is gone, `get_key_info` returns nothing for that account. -/
theorem C8_account_existence_consistent (s : AuthContractState)
    (h : Reachable s) :
    ∀ a, ((mapLookup s.keys a).isSome ↔ a ∈ s.registered_accounts)
      ∧ ((mapLookup s.keys a).isSome ↔ (mapLookup s.last_active_timestamps a).isSome)
      ∧ (∀ ks, mapLookup s.keys a = some ks → ks ≠ [])
      ∧ (mapLookup s.keys a = none → ∀ pk, get_key_info s a pk = none) := by
  have hc : StateConsistent s := by
    induction h with
    | empty => exact consistent_empty
    | mutate s op now hre ih => exact consistent_runMut s op now ih
    | authorize s account_id public_key signatures now hre ih =>
      exact consistent_authorize s account_id public_key signatures now ih
  intro a
  rcases hc a with ⟨h1, h2, h3⟩
  refine ⟨h1, h2, h3, ?_⟩
  intro hnone pk
  simp [get_key_info, hnone]

/-- C8 witness: the consistency conclusions evaluated on the reachable store
that registers one key for `alice`, then removes it again. -/
theorem C8_account_existence_consistent_witness :
    ¬ ((mapLookup (runMut demoSingle (MutOp.remove "alice" "alice" pk32) 0).2.keys
        "alice").isSome)
    ∧ ("alice" ∉ (runMut demoSingle
        (MutOp.remove "alice" "alice" pk32) 0).2.registered_accounts) := by
  have hreach : Reachable (runMut demoSingle (MutOp.remove "alice" "alice" pk32) 0).2 :=
    Reachable.mutate demoSingle (MutOp.remove "alice" "alice" pk32) 0
      (Reachable.mutate emptyState (MutOp.register "alice" "alice" pk32 none false none)
        0 Reachable.empty)
  have h := C8_account_existence_consistent
    (runMut demoSingle (MutOp.remove "alice" "alice" pk32) 0).2 hreach "alice"
  constructor
  · intro hs
    have := h.1.mp hs
    revert this
    decide
  · intro hm
    have := h.1.mpr hm
    revert this
    decide
